import Mathlib

/-!
# MTLGSRender: the Metal render backend of `rpcs3/Emu/RSX/MTL/MTLGSRender.cpp`

A shallow embedding of the class `MTLGSRender` and of its lifecycle
(`initialize`, `render`, `shutdown`).

* The four private members are a record `Backend`; every member function is a
  function from the state before the call to a `Run`: the state after it, the
  sequence of messages it sent (`Event`s, in program order) and the way the call
  ended for its caller.
* The graphics API is an external collaborator.  What it answers to one call of
  `initialize()` is an `InitEnv`, what it answers during one call of `render()`
  is a `FrameEnv`; theorems quantify over all of them.
* A message sent to `nil` does nothing and answers `nil` (or `0`), as in
  Objective-C; the event records the receiver the message was sent to, so a
  `none` receiver in an event is such a message.
-/

namespace MTLGSRender

/-! ## Data model -/

/-- Identity of an API object.  A variable of type `id<...>` or `CAMetalLayer*`
is an `Option` of it, `none` being `nil`. -/
abbrev Handle := Nat

/-- Value of `MTLPixelFormatInvalid`; also what reading `pixelFormat` from `nil` answers. -/
def MTLPixelFormatInvalid : Nat := 0

/-- Value of `MTLPixelFormatBGRA8Unorm` in the Metal headers. -/
def MTLPixelFormatBGRA8Unorm : Nat := 80

/-- The properties of a `CAMetalLayer` object that the backend writes or reads. -/
structure CAMetalLayer where
  id : Handle
  device : Option Handle
  pixelFormat : Nat
  framebufferOnly : Bool
  deriving DecidableEq, Repr

/-- The private members of `MTLGSRender` (source lines 18-21). -/
structure Backend where
  device : Option Handle
  commandQueue : Option Handle
  metalLayer : Option CAMetalLayer
  pipelineState : Option Handle
  deriving DecidableEq, Repr

/-- The fields of `MTLRenderPipelineDescriptor` set by `createRenderPipeline` (lines 80-83). -/
structure MTLRenderPipelineDescriptor where
  vertexFunction : Option Handle
  fragmentFunction : Option Handle
  colorAttachment0PixelFormat : Nat
  deriving DecidableEq, Repr

/-- Load actions of a render pass attachment. -/
inductive MTLLoadAction where
  | DontCare
  | Load
  | Clear
  deriving DecidableEq, Repr

/-- Store actions of a render pass attachment. -/
inductive MTLStoreAction where
  | DontCare
  | Store
  deriving DecidableEq, Repr

/-- The fields of colour attachment 0 of the `MTLRenderPassDescriptor` set by
`render` (lines 114-118).  The clear colour is the constant
`MTLClearColorMake(0.0, 0.0, 0.0, 1.0)`, kept as its four literal components. -/
structure MTLRenderPassDescriptor where
  texture : Option Handle
  loadAction : MTLLoadAction
  clearColor : Nat × Nat × Nat × Nat
  storeAction : MTLStoreAction
  deriving DecidableEq, Repr

/-- A drawable handed out by the layer, with the texture it wraps. -/
structure CAMetalDrawable where
  id : Handle
  texture : Option Handle
  deriving DecidableEq, Repr

/-- Primitive topologies of a legacy draw call. -/
inductive Primitive where
  | PointList
  | LineList
  | TriangleList
  | TriangleStrip
  deriving DecidableEq, Repr

/-- Modelled from the spec: the type `RSX::GcmContextData` is declared in
`Emu/RSX/GCM.h`, which is not part of the sources.  It is the legacy context
snapshot of the data model: vertex format, texture bindings (slot, resource),
blend state, viewport rectangle and the pending draw parameters. -/
structure GcmContextData where
  vertexFormat : Nat
  textures : List (Nat × Handle)
  blendEnabled : Bool
  viewport : Nat × Nat × Nat × Nat
  topology : Primitive
  firstVertex : Nat
  vertexCount : Nat
  deriving DecidableEq, Repr

/-- The messages and calls the backend issues, one constructor per call site of
the source, with the receiver and the arguments of the call.  The last three are
the encoder calls of the outbound interface that a translated draw needs (bind
resource at slot, set viewport, draw); no line of the source issues them. -/
inductive Event where
  | MTLCreateSystemDefaultDevice
  | newCommandQueue (device : Option Handle)
  | layer
  | setDevice (layer : Handle) (device : Option Handle)
  | setPixelFormat (layer : Handle) (format : Nat)
  | setFramebufferOnly (layer : Handle) (flag : Bool)
  | newDefaultLibrary (device : Option Handle)
  | newFunctionWithName (library : Option Handle) (name : String)
  | newRenderPipelineStateWithDescriptor (device : Option Handle)
      (descriptor : MTLRenderPipelineDescriptor)
  | ERROR_MSG (format : String) (args : List String)
  | nextDrawable (layer : Option Handle)
  | commandBuffer (queue : Option Handle)
  | renderCommandEncoderWithDescriptor (commandBuffer : Option Handle)
      (pass : MTLRenderPassDescriptor)
  | setRenderPipelineState (encoder : Option Handle) (pipelineState : Option Handle)
  | get_current_gcm_context
  | endEncoding (encoder : Option Handle)
  | presentDrawable (commandBuffer : Option Handle) (drawable : Handle)
  | commit (commandBuffer : Option Handle)
  | release (object : Handle)
  | bindResource (encoder : Option Handle) (slot : Nat) (resource : Handle)
  | setViewport (encoder : Option Handle) (rect : Nat × Nat × Nat × Nat)
  | draw (encoder : Option Handle) (primitive : Primitive) (first : Nat) (count : Nat)
  deriving DecidableEq, Repr

/-- Modelled from the spec: the error taxonomy of the lifecycle contract
(`InitError` and `RenderError` of the error handling design); the source
declares no error type. -/
inductive ErrorKind where
  | DeviceUnavailable
  | QueueCreationFailed
  | LibraryLoadFailed
  | FunctionLookupFailed
  | PipelineCompilationError (diagnostic : String)
  | DrawableUnavailable
  | CommandBufferCreationFailed
  | UnsupportedPrimitiveTopology
  | InvalidResourceBinding
  deriving DecidableEq, Repr

/-- How a call ended for its caller.  Every member function of the source is
`void` and has no `throw`: each `return;` and each fall off the end of a body is
`normal`.  `failed e` is the error result of the lifecycle contract. -/
inductive Completion where
  | normal
  | failed (e : ErrorKind)
  deriving DecidableEq, Repr

/-- The outcome of one call of a member function. -/
structure Run where
  ret : Completion
  state : Backend
  trace : List Event
  deriving DecidableEq, Repr

/-- What the graphics API answers during one call of `initialize()`.  Each field
is the answer to the call of that name when its receiver is not `nil`; `layer`
is the object `[CAMetalLayer layer]` creates, with the properties it has before
the backend configures it; `newRenderPipelineState` is the returned object
together with the `NSError` written through `error:` (its
`localizedDescription`). -/
structure InitEnv where
  systemDefaultDevice : Option Handle
  newCommandQueue : Option Handle
  layer : CAMetalLayer
  newDefaultLibrary : Option Handle
  vertex_main : Option Handle
  fragment_main : Option Handle
  newRenderPipelineState : Option Handle × Option String

/-- What the collaborators answer during one call of `render()`: the layer, the
queue, the command buffer and the RSX thread. -/
structure FrameEnv where
  nextDrawable : Option CAMetalDrawable
  commandBuffer : Option Handle
  renderCommandEncoder : Option Handle
  gcmContext : Option GcmContextData

/-! ## Operations -/

/-- Answer of a message: `nil` when the receiver is `nil`, the API's answer otherwise. -/
def msgSend {α β : Type} (receiver : Option α) (answer : Option β) : Option β :=
  match receiver with
  | none => none
  | some _ => answer

/-- Storing into a handle member gives up the object the member held, if any
(line 135: "Release Metal resources"). -/
def released (old : Option Handle) : List Event :=
  match old with
  | none => []
  | some h => [Event.release h]

/-- Identity of the layer a `CAMetalLayer*` points to. -/
def layerId (l : Option CAMetalLayer) : Option Handle :=
  l.map (fun x => x.id)

/-- Reading `metalLayer.pixelFormat`: `0` on a `nil` layer. -/
def layerPixelFormat (l : Option CAMetalLayer) : Nat :=
  match l with
  | none => MTLPixelFormatInvalid
  | some x => x.pixelFormat

/-- The constructor `MTLGSRender::MTLGSRender()` (lines 28-29). -/
def construct : Backend :=
  { device := none, commandQueue := none, metalLayer := none, pipelineState := none }

/-- The function `MTLGSRender::shutdown()` (lines 134-140). -/
def shutdown (s : Backend) : Run :=
  { ret := Completion.normal
    state := { device := none, commandQueue := none, metalLayer := none, pipelineState := none }
    trace := released s.commandQueue ++ released (layerId s.metalLayer)
      ++ released s.pipelineState ++ released s.device }

/-- The destructor `MTLGSRender::~MTLGSRender()` (lines 31-33). -/
def destruct (s : Backend) : Run :=
  shutdown s

/-- The function `MTLGSRender::setupMetal()` (lines 40-60). -/
def setupMetal (env : InitEnv) (s : Backend) : Run :=
  let t1 := [Event.MTLCreateSystemDefaultDevice] ++ released s.device
  let s1 := { s with device := env.systemDefaultDevice }
  match s1.device with
  | none =>
    { ret := Completion.normal, state := s1
      trace := t1 ++ [Event.ERROR_MSG "MTLGSRender: Failed to create Metal device!" []] }
  | some _ =>
    let queue := msgSend s1.device env.newCommandQueue
    let t2 := t1 ++ [Event.newCommandQueue s1.device] ++ released s1.commandQueue
    let s2 := { s1 with commandQueue := queue }
    match queue with
    | none =>
      { ret := Completion.normal, state := s2
        trace := t2 ++ [Event.ERROR_MSG "MTLGSRender: Failed to create Metal command queue!" []] }
    | some _ =>
      let l := { env.layer with
        device := s2.device
        pixelFormat := MTLPixelFormatBGRA8Unorm
        framebufferOnly := true }
      { ret := Completion.normal
        state := { s2 with metalLayer := some l }
        trace := t2 ++ [Event.layer] ++ released (layerId s2.metalLayer)
          ++ [Event.setDevice l.id s2.device,
              Event.setPixelFormat l.id MTLPixelFormatBGRA8Unorm,
              Event.setFramebufferOnly l.id true] }

/-- The function `MTLGSRender::createRenderPipeline()` (lines 62-90). -/
def createRenderPipeline (env : InitEnv) (s : Backend) : Run :=
  let library := msgSend s.device env.newDefaultLibrary
  let t1 := [Event.newDefaultLibrary s.device]
  match library with
  | none =>
    { ret := Completion.normal, state := s
      trace := t1 ++ [Event.ERROR_MSG "MTLGSRender: Failed to load Metal library!" []] }
  | some _ =>
    let vertexFunction := msgSend library env.vertex_main
    let fragmentFunction := msgSend library env.fragment_main
    let t2 := t1 ++ [Event.newFunctionWithName library "vertex_main",
                     Event.newFunctionWithName library "fragment_main"]
    if vertexFunction.isNone || fragmentFunction.isNone then
      { ret := Completion.normal, state := s
        trace := t2 ++ [Event.ERROR_MSG "MTLGSRender: Failed to load Metal functions!" []] }
    else
      let pipelineDescriptor : MTLRenderPipelineDescriptor :=
        { vertexFunction := vertexFunction
          fragmentFunction := fragmentFunction
          colorAttachment0PixelFormat := layerPixelFormat s.metalLayer }
      let answer := env.newRenderPipelineState
      let t3 := t2 ++ [Event.newRenderPipelineStateWithDescriptor s.device pipelineDescriptor]
        ++ released s.pipelineState
      let s3 := { s with pipelineState := msgSend s.device answer.1 }
      match msgSend s.device answer.2 with
      | none => { ret := Completion.normal, state := s3, trace := t3 }
      | some description =>
        { ret := Completion.normal, state := s3
          trace := t3 ++ [Event.ERROR_MSG
            "MTLGSRender: Failed to create Metal pipeline state: %s" [description]] }

/-- The function `MTLGSRender::initialize()` (lines 35-38). -/
def initialize_backend (env : InitEnv) (s : Backend) : Run :=
  let r1 := setupMetal env s
  let r2 := createRenderPipeline env r1.state
  { ret := r2.ret, state := r2.state, trace := r1.trace ++ r2.trace }

/-- The function `MTLGSRender::executeRenderCommand` (lines 92-96): its body holds
comments only, and it is handed neither the encoder nor the command buffer. -/
def executeRenderCommand (_ctx : Option GcmContextData) (s : Backend) : Run :=
  { ret := Completion.normal, state := s, trace := [] }

/-- The function `MTLGSRender::render()` (lines 98-132). -/
def render (env : FrameEnv) (s : Backend) : Run :=
  let drawable := msgSend s.metalLayer env.nextDrawable
  let t1 := [Event.nextDrawable (layerId s.metalLayer)]
  match drawable with
  | none =>
    { ret := Completion.normal, state := s
      trace := t1 ++ [Event.ERROR_MSG "MTLGSRender: Failed to get Metal drawable!" []] }
  | some d =>
    let commandBuffer := msgSend s.commandQueue env.commandBuffer
    let t2 := t1 ++ [Event.commandBuffer s.commandQueue]
    match commandBuffer with
    | none =>
      { ret := Completion.normal, state := s
        trace := t2 ++ [Event.ERROR_MSG "MTLGSRender: Failed to create Metal command buffer!" []] }
    | some _ =>
      let passDescriptor : MTLRenderPassDescriptor :=
        { texture := d.texture
          loadAction := MTLLoadAction.Clear
          clearColor := (0, 0, 0, 1)
          storeAction := MTLStoreAction.Store }
      let renderEncoder := msgSend commandBuffer env.renderCommandEncoder
      let t3 := t2 ++ [Event.renderCommandEncoderWithDescriptor commandBuffer passDescriptor,
                       Event.setRenderPipelineState renderEncoder s.pipelineState,
                       Event.get_current_gcm_context]
      let r := executeRenderCommand env.gcmContext s
      { ret := Completion.normal
        state := r.state
        trace := t3 ++ r.trace ++ [Event.endEncoding renderEncoder,
                                   Event.presentDrawable commandBuffer d.id,
                                   Event.commit commandBuffer] }

/-- The host calling `render()` once per frame, one `FrameEnv` per call: the
state after the last frame and the messages of all frames in order. -/
def renderFrames : List FrameEnv → Backend → Backend × List Event
  | [], s => (s, [])
  | f :: fs, s =>
    let r := render f s
    let rest := renderFrames fs r.state
    (rest.1, r.trace ++ rest.2)

/-! ## Classifying the messages of a trace -/

/-- A command buffer is requested from the queue (line 107). -/
def Event.isCommandBufferRequest : Event → Bool
  | Event.commandBuffer _ => true
  | _ => false

/-- A render encoder is opened on a command buffer (line 121). -/
def Event.isEncoderOpen : Event → Bool
  | Event.renderCommandEncoderWithDescriptor _ _ => true
  | _ => false

/-- A pipeline state is bound on an encoder (line 122). -/
def Event.isPipelineBind : Event → Bool
  | Event.setRenderPipelineState _ _ => true
  | _ => false

/-- An encoding session is closed (line 129). -/
def Event.isEndEncoding : Event → Bool
  | Event.endEncoding _ => true
  | _ => false

/-- Presentation of a drawable is requested (line 130). -/
def Event.isPresent : Event → Bool
  | Event.presentDrawable _ _ => true
  | _ => false

/-- A command buffer is committed to the queue (line 131). -/
def Event.isCommit : Event → Bool
  | Event.commit _ => true
  | _ => false

/-- A pipeline state object is compiled (line 86). -/
def Event.isCompile : Event → Bool
  | Event.newRenderPipelineStateWithDescriptor _ _ => true
  | _ => false

/-- An object is given up. -/
def Event.isRelease : Event → Bool
  | Event.release _ => true
  | _ => false

/-- An error is logged. -/
def Event.isErrorMsg : Event → Bool
  | Event.ERROR_MSG _ _ => true
  | _ => false

/-- A translated operation other than the pipeline bind is encoded: a resource
bind, a viewport set or a draw. -/
def Event.isTranslatedOp : Event → Bool
  | Event.bindResource _ _ _ => true
  | Event.setViewport _ _ => true
  | Event.draw _ _ _ _ => true
  | _ => false

/-- A queue, a layer, a shader function or a pipeline state is created, or the
layer is configured (lines 49, 56-59, 72-73, 86). -/
def Event.isCreation : Event → Bool
  | Event.newCommandQueue _ => true
  | Event.layer => true
  | Event.setDevice _ _ => true
  | Event.setPixelFormat _ _ => true
  | Event.setFramebufferOnly _ _ => true
  | Event.newFunctionWithName _ _ => true
  | Event.newRenderPipelineStateWithDescriptor _ _ => true
  | _ => false

/-- Number of pipeline-state compilation calls in a trace. -/
def compileCount (t : List Event) : Nat :=
  (t.filter Event.isCompile).length

/-- The answers with which `initialize()` gets as far as the compilation call:
a device, a library and both shader functions (the guards of lines 43, 66, 74
let it pass; the one of line 50 is not consulted by `createRenderPipeline`). -/
def reachesCompile (env : InitEnv) : Bool :=
  env.systemDefaultDevice.isSome && env.newDefaultLibrary.isSome
    && env.vertex_main.isSome && env.fragment_main.isSome

/-- Some message satisfying `p` is sent before some later message satisfying `q`. -/
def occursBefore (p q : Event → Bool) : List Event → Bool
  | [] => false
  | e :: t => (p e && t.any q) || occursBefore p q t

/-! ## Concrete inputs -/

/-- A host on which every call of `initialize()` succeeds. -/
def hostOk : InitEnv :=
  { systemDefaultDevice := some 1
    newCommandQueue := some 2
    layer := { id := 3, device := none, pixelFormat := MTLPixelFormatBGRA8Unorm,
               framebufferOnly := false }
    newDefaultLibrary := some 4
    vertex_main := some 5
    fragment_main := some 6
    newRenderPipelineState := (some 7, none) }

/-- The backend after a successful `initialize()` on a fresh object. -/
def readyBackend : Backend :=
  { device := some 1
    commandQueue := some 2
    metalLayer := some { id := 3, device := some 1, pixelFormat := MTLPixelFormatBGRA8Unorm,
                         framebufferOnly := true }
    pipelineState := some 7 }

/-- A frame in which the layer hands out no drawable. -/
def frameNoDrawable : FrameEnv :=
  { nextDrawable := none, commandBuffer := some 11, renderCommandEncoder := some 12,
    gcmContext := none }

/-- A frame in which the drawable is acquired and the queue hands out no command buffer. -/
def frameNoCommandBuffer : FrameEnv :=
  { nextDrawable := some { id := 10, texture := some 20 }, commandBuffer := none,
    renderCommandEncoder := some 12, gcmContext := none }

/-- A frame in which every acquisition succeeds. -/
def frameOk : FrameEnv :=
  { nextDrawable := some { id := 10, texture := some 20 }, commandBuffer := some 11,
    renderCommandEncoder := some 12, gcmContext := none }

/-- A host without a compatible device. -/
def hostNoDevice : InitEnv :=
  { hostOk with systemDefaultDevice := none }

/-- A host whose device rejects the creation of a command queue. -/
def hostNoQueue : InitEnv :=
  { hostOk with newCommandQueue := none }

/-- A host whose default shader library cannot be loaded. -/
def hostNoLibrary : InitEnv :=
  { hostOk with newDefaultLibrary := none }

/-- A host on which the compilation of the pipeline state fails with a diagnostic. -/
def hostCompileError : InitEnv :=
  { hostOk with newRenderPipelineState := (none, some "link failed") }

/-- The log line of a failed pipeline compilation (line 88). -/
def pipelineErrorMsg (description : String) : Event :=
  Event.ERROR_MSG "MTLGSRender: Failed to create Metal pipeline state: %s" [description]

/-- The backend after a successful `setupMetal()` on a fresh object. -/
def setUpBackend : Backend :=
  { device := some 1
    commandQueue := some 2
    metalLayer := some { id := 3, device := some 1, pixelFormat := MTLPixelFormatBGRA8Unorm,
                         framebufferOnly := true }
    pipelineState := none }

/-- The snapshot of the scenario: vertex format F1 (`1`), texture slot 0 bound
to resource R (`42`), blending disabled, a viewport, a triangle list of 6
vertices starting at 0. -/
def snapshotF1 : GcmContextData :=
  { vertexFormat := 1
    textures := [(0, 42)]
    blendEnabled := false
    viewport := (0, 0, 1280, 720)
    topology := Primitive.TriangleList
    firstVertex := 0
    vertexCount := 6 }

/-- A frame in which every acquisition succeeds and the RSX thread holds `snapshotF1`. -/
def frameF1 : FrameEnv :=
  { frameOk with gcmContext := some snapshotF1 }

/-- Modelled from the spec: the operation sequence the command translator is
to produce for a snapshot, as encoder calls: the pipeline-state bind, one
resource bind per bound texture slot, the viewport, then the draw that ends the
sequence.  The source has no such function; `executeRenderCommand` is compared
with it. -/
def translatedOperations (encoder pipelineState : Option Handle) (ctx : GcmContextData) :
    List Event :=
  [Event.setRenderPipelineState encoder pipelineState]
    ++ ctx.textures.map (fun b => Event.bindResource encoder b.1 b.2)
    ++ [Event.setViewport encoder ctx.viewport,
        Event.draw encoder ctx.topology ctx.firstVertex ctx.vertexCount]

/-- The messages of a trace that go to the render encoder between its creation
and the end of encoding: the pipeline bind and the translated operations. -/
def encoded (t : List Event) : List Event :=
  t.filter (fun e => e.isPipelineBind || e.isTranslatedOp)

/-! ## The concrete backends are what the code produces -/

/-- On a host where every call succeeds, `initialize()` turns a fresh backend
into `readyBackend`, and `setupMetal()` alone turns it into `setUpBackend`. -/
theorem readyBackend_is_initialized :
    (initialize_backend hostOk construct).state = readyBackend
    ∧ (setupMetal hostOk construct).state = setUpBackend
    ∧ (setupMetal hostCompileError construct).state = setUpBackend :=
  ⟨rfl, rfl, rfl⟩

/-! ## Shutdown -/

/-- C1: `shutdown()` is total and idempotent.  From every backend state it
completes normally, logs no error and leaves `device`, `commandQueue`,
`metalLayer` and `pipelineState` all `nil`; a second `shutdown()` (also the one
the destructor makes) completes normally, yields the same state as the first and
gives up no object.  This holds in particular for the state left by any
`initialize()` on a fresh backend, whatever step of it failed. -/
theorem shutdown_idempotent_total (s : Backend) :
    (shutdown s).ret = Completion.normal
    ∧ (∀ e ∈ (shutdown s).trace, e.isErrorMsg = false)
    ∧ (shutdown s).state.device = none
    ∧ (shutdown s).state.commandQueue = none
    ∧ (shutdown s).state.metalLayer = none
    ∧ (shutdown s).state.pipelineState = none
    ∧ shutdown (shutdown s).state
        = { ret := Completion.normal, state := (shutdown s).state, trace := [] }
    ∧ destruct (shutdown s).state
        = { ret := Completion.normal, state := (shutdown s).state, trace := [] }
    ∧ (∀ env : InitEnv,
        (shutdown (initialize_backend env construct).state).state = construct
        ∧ (shutdown (shutdown (initialize_backend env construct).state).state).trace = []) := by
  refine ⟨rfl, ?_, rfl, rfl, rfl, rfl, rfl, rfl, fun env => ⟨rfl, rfl⟩⟩
  intro e he
  simp only [shutdown, List.mem_append] at he
  have key : ∀ o : Option Handle, e ∈ released o → e.isErrorMsg = false := by
    intro o ho
    cases o with
    | none => simp [released] at ho
    | some h =>
      simp only [released, List.mem_singleton] at ho
      subst ho
      rfl
  rcases he with ((h | h) | h) | h <;> exact key _ h

/-! ## A frame that cannot start -/

/-- A message to an object gets the API's answer. -/
theorem msgSend_some {α β : Type} (a : α) (answer : Option β) :
    msgSend (some a) answer = answer := rfl

/-- A message to `nil` answers `nil`. -/
theorem msgSend_none {α β : Type} (answer : Option β) :
    msgSend (none : Option α) answer = none := rfl

/-- What `render()` does when the layer hands out no drawable (lines 100-104). -/
theorem render_of_no_drawable (env : FrameEnv) (s : Backend)
    (h : msgSend s.metalLayer env.nextDrawable = none) :
    render env s =
      { ret := Completion.normal, state := s
        trace := [Event.nextDrawable (layerId s.metalLayer),
                  Event.ERROR_MSG "MTLGSRender: Failed to get Metal drawable!" []] } := by
  simp [render, h]

/-- What `render()` does when the drawable is acquired and the queue hands out
no command buffer (lines 100-111). -/
theorem render_of_no_commandBuffer (env : FrameEnv) (s : Backend) (d : CAMetalDrawable)
    (hd : msgSend s.metalLayer env.nextDrawable = some d)
    (hc : msgSend s.commandQueue env.commandBuffer = none) :
    render env s =
      { ret := Completion.normal, state := s
        trace := [Event.nextDrawable (layerId s.metalLayer),
                  Event.commandBuffer s.commandQueue,
                  Event.ERROR_MSG "MTLGSRender: Failed to create Metal command buffer!" []] } := by
  simp [render, hd, hc]

/-- What `render()` does when both the drawable and the command buffer are
obtained (lines 100-132). -/
theorem render_of_acquired (env : FrameEnv) (s : Backend) (d : CAMetalDrawable) (cb : Handle)
    (hd : msgSend s.metalLayer env.nextDrawable = some d)
    (hc : msgSend s.commandQueue env.commandBuffer = some cb) :
    render env s =
      { ret := Completion.normal, state := s
        trace := [Event.nextDrawable (layerId s.metalLayer),
                  Event.commandBuffer s.commandQueue,
                  Event.renderCommandEncoderWithDescriptor (some cb)
                    { texture := d.texture, loadAction := MTLLoadAction.Clear,
                      clearColor := (0, 0, 0, 1), storeAction := MTLStoreAction.Store },
                  Event.setRenderPipelineState env.renderCommandEncoder s.pipelineState,
                  Event.get_current_gcm_context,
                  Event.endEncoding env.renderCommandEncoder,
                  Event.presentDrawable (some cb) d.id,
                  Event.commit (some cb)] } := by
  simp [render, hd, hc, executeRenderCommand, msgSend_some]

/-- C2 (as stated, refuted): on an initialised backend whose layer hands out no
drawable, `render()` does not return `DrawableUnavailable`: the function is
`void` and its `return;` at line 103 is a normal completion, the same its
caller gets from a frame that was rendered and committed. -/
theorem render_no_drawable_returns_no_error :
    msgSend readyBackend.metalLayer frameNoDrawable.nextDrawable = none
    ∧ (render frameNoDrawable readyBackend).ret
        ≠ Completion.failed ErrorKind.DrawableUnavailable
    ∧ (render frameNoDrawable readyBackend).ret = (render frameOk readyBackend).ret := by
  rw [render_of_no_drawable frameNoDrawable readyBackend rfl,
    render_of_acquired frameOk readyBackend { id := 10, texture := some 20 } 11 rfl rfl]
  refine ⟨rfl, ?_, rfl⟩
  intro h
  cases h

/-- C2 (amended): for every backend state, if acquiring the next drawable fails
(the layer is `nil` or hands out no drawable), `render()` logs "Failed to get
Metal drawable!" and returns normally with no error value, the members
unchanged, and no command buffer is created: the trace of that `render()` is
the drawable request and the log line, so it holds no command-buffer request, no
encoder, no pipeline bind, no present and no commit. -/
theorem render_drawable_failure (env : FrameEnv) (s : Backend)
    (h : msgSend s.metalLayer env.nextDrawable = none) :
    (render env s).ret = Completion.normal
    ∧ (render env s).state = s
    ∧ (render env s).trace =
        [Event.nextDrawable (layerId s.metalLayer),
         Event.ERROR_MSG "MTLGSRender: Failed to get Metal drawable!" []]
    ∧ (∀ e ∈ (render env s).trace,
        e.isCommandBufferRequest = false ∧ e.isEncoderOpen = false
        ∧ e.isPipelineBind = false ∧ e.isEndEncoding = false
        ∧ e.isPresent = false ∧ e.isCommit = false) := by
  rw [render_of_no_drawable env s h]
  refine ⟨rfl, rfl, rfl, ?_⟩
  intro e he
  simp only [List.mem_cons, List.mem_singleton, List.not_mem_nil, or_false] at he
  rcases he with rfl | rfl <;> exact ⟨rfl, rfl, rfl, rfl, rfl, rfl⟩

/-- Witness of `render_drawable_failure`: an initialised backend whose layer
hands out no drawable. -/
theorem render_drawable_failure_witness :
    msgSend readyBackend.metalLayer frameNoDrawable.nextDrawable = none
    ∧ (render frameNoDrawable readyBackend).ret = Completion.normal
    ∧ (render frameNoDrawable readyBackend).state = readyBackend
    ∧ (render frameNoDrawable readyBackend).trace =
        [Event.nextDrawable (layerId readyBackend.metalLayer),
         Event.ERROR_MSG "MTLGSRender: Failed to get Metal drawable!" []]
    ∧ (∀ e ∈ (render frameNoDrawable readyBackend).trace,
        e.isCommandBufferRequest = false ∧ e.isEncoderOpen = false
        ∧ e.isPipelineBind = false ∧ e.isEndEncoding = false
        ∧ e.isPresent = false ∧ e.isCommit = false) :=
  ⟨rfl, render_drawable_failure frameNoDrawable readyBackend rfl⟩

/-- C3: for every backend state in which the drawable is acquired and the queue
hands out no command buffer (the queue is `nil` or answers `nil`), `render()`
aborts the frame: it returns with the members unchanged, and its trace is the
drawable request, the command-buffer request and one log line, so no render
encoder is opened, no pipeline state is bound, no translated operation is
encoded, no encoding is closed, no presentation is requested and nothing is
committed. -/
theorem render_commandBuffer_failure (env : FrameEnv) (s : Backend) (d : CAMetalDrawable)
    (hd : msgSend s.metalLayer env.nextDrawable = some d)
    (hc : msgSend s.commandQueue env.commandBuffer = none) :
    (render env s).state = s
    ∧ (render env s).trace =
        [Event.nextDrawable (layerId s.metalLayer),
         Event.commandBuffer s.commandQueue,
         Event.ERROR_MSG "MTLGSRender: Failed to create Metal command buffer!" []]
    ∧ (∀ e ∈ (render env s).trace,
        e.isEncoderOpen = false ∧ e.isPipelineBind = false
        ∧ e.isTranslatedOp = false ∧ e.isEndEncoding = false
        ∧ e.isPresent = false ∧ e.isCommit = false) := by
  rw [render_of_no_commandBuffer env s d hd hc]
  refine ⟨rfl, rfl, ?_⟩
  intro e he
  simp only [List.mem_cons, List.mem_singleton, List.not_mem_nil, or_false] at he
  rcases he with rfl | rfl | rfl <;> exact ⟨rfl, rfl, rfl, rfl, rfl, rfl⟩

/-- Witness of `render_commandBuffer_failure`: an initialised backend, a frame
whose drawable is acquired and whose command-buffer request answers `nil`. -/
theorem render_commandBuffer_failure_witness :
    msgSend readyBackend.metalLayer frameNoCommandBuffer.nextDrawable
        = some { id := 10, texture := some 20 }
    ∧ msgSend readyBackend.commandQueue frameNoCommandBuffer.commandBuffer = none
    ∧ (render frameNoCommandBuffer readyBackend).state = readyBackend
    ∧ (render frameNoCommandBuffer readyBackend).trace =
        [Event.nextDrawable (layerId readyBackend.metalLayer),
         Event.commandBuffer readyBackend.commandQueue,
         Event.ERROR_MSG "MTLGSRender: Failed to create Metal command buffer!" []]
    ∧ (∀ e ∈ (render frameNoCommandBuffer readyBackend).trace,
        e.isEncoderOpen = false ∧ e.isPipelineBind = false
        ∧ e.isTranslatedOp = false ∧ e.isEndEncoding = false
        ∧ e.isPresent = false ∧ e.isCommit = false) :=
  ⟨rfl, rfl, render_commandBuffer_failure frameNoCommandBuffer readyBackend
    { id := 10, texture := some 20 } rfl rfl⟩

/-! ## Initialisation -/

/-- An event is among the objects given up by a store only if it is a release. -/
theorem isRelease_of_mem_released (o : Option Handle) (e : Event) (h : e ∈ released o) :
    e.isRelease = true := by
  cases o with
  | none => simp [released] at h
  | some x =>
    simp only [released, List.mem_singleton] at h
    subst h
    rfl

/-- What `initialize()` does when no device is created (lines 35-46, 62-69). -/
theorem initialize_of_no_device (env : InitEnv) (s : Backend)
    (h : env.systemDefaultDevice = none) :
    initialize_backend env s =
      { ret := Completion.normal
        state := { s with device := none }
        trace := [Event.MTLCreateSystemDefaultDevice] ++ released s.device
          ++ [Event.ERROR_MSG "MTLGSRender: Failed to create Metal device!" [],
              Event.newDefaultLibrary none,
              Event.ERROR_MSG "MTLGSRender: Failed to load Metal library!" []] } := by
  simp [initialize_backend, setupMetal, createRenderPipeline, h, msgSend_none]

/-- C4 (as stated, refuted): on a host without a device, `initialize()` on a
fresh backend does not fail with `DeviceUnavailable`; it completes normally, as
it does on a host where every step succeeds, and leaves a backend with all four
members `nil`. -/
theorem initialize_no_device_returns_no_error :
    hostNoDevice.systemDefaultDevice = none
    ∧ (initialize_backend hostNoDevice construct).ret
        ≠ Completion.failed ErrorKind.DeviceUnavailable
    ∧ (initialize_backend hostNoDevice construct).ret = Completion.normal
    ∧ (initialize_backend hostNoDevice construct).ret = (initialize_backend hostOk construct).ret
    ∧ (initialize_backend hostNoDevice construct).state = construct := by
  have hok : (initialize_backend hostOk construct).ret = Completion.normal := rfl
  rw [hok, initialize_of_no_device hostNoDevice construct rfl]
  refine ⟨rfl, ?_, rfl, rfl, rfl⟩
  intro h
  cases h

/-- C4 (amended): if device creation returns `nil`, `initialize()` reports it
through the log only and completes normally, with no error result.  It logs
"Failed to create Metal device!"; it creates no queue, no layer, no shader
function and no pipeline state; `device` is `nil` afterwards and the other three
members keep their values, so a fresh backend stays all `nil`, and every later
`render()` on it logs the drawable failure and submits nothing. -/
theorem initialize_device_failure (env : InitEnv) (s : Backend)
    (h : env.systemDefaultDevice = none) :
    (initialize_backend env s).ret = Completion.normal
    ∧ (initialize_backend env s).state = { s with device := none }
    ∧ Event.ERROR_MSG "MTLGSRender: Failed to create Metal device!" []
        ∈ (initialize_backend env s).trace
    ∧ (∀ e ∈ (initialize_backend env s).trace, e.isCreation = false)
    ∧ (initialize_backend env construct).state = construct
    ∧ (∀ f : FrameEnv,
        render f (initialize_backend env construct).state =
          { ret := Completion.normal, state := construct
            trace := [Event.nextDrawable none,
                      Event.ERROR_MSG "MTLGSRender: Failed to get Metal drawable!" []] }) := by
  have hc : (initialize_backend env construct).state = construct := by
    rw [initialize_of_no_device env construct h]
    rfl
  rw [hc, initialize_of_no_device env s h]
  refine ⟨rfl, rfl, ?_, ?_, rfl, ?_⟩
  · simp
  · intro e he
    simp only [List.mem_append, List.mem_cons, List.mem_singleton, List.not_mem_nil,
      or_false] at he
    rcases he with (rfl | he) | rfl | rfl | rfl
    · rfl
    · have hr := isRelease_of_mem_released _ _ he
      cases e <;> first | rfl | simp [Event.isRelease] at hr
    · rfl
    · rfl
    · rfl
  · intro f
    rw [render_of_no_drawable f construct rfl]
    rfl

/-- Witness of `initialize_device_failure`: a fresh backend on a host without a device. -/
theorem initialize_device_failure_witness :
    hostNoDevice.systemDefaultDevice = none
    ∧ (initialize_backend hostNoDevice construct).ret = Completion.normal
    ∧ (initialize_backend hostNoDevice construct).state = { construct with device := none }
    ∧ Event.ERROR_MSG "MTLGSRender: Failed to create Metal device!" []
        ∈ (initialize_backend hostNoDevice construct).trace
    ∧ (∀ e ∈ (initialize_backend hostNoDevice construct).trace, e.isCreation = false)
    ∧ (initialize_backend hostNoDevice construct).state = construct
    ∧ (∀ f : FrameEnv,
        render f (initialize_backend hostNoDevice construct).state =
          { ret := Completion.normal, state := construct
            trace := [Event.nextDrawable none,
                      Event.ERROR_MSG "MTLGSRender: Failed to get Metal drawable!" []] }) :=
  ⟨rfl, initialize_device_failure hostNoDevice construct rfl⟩

/-! ## Compiling the pipeline state -/

/-- The log lines of the pipeline compilation: one when the API wrote an error. -/
theorem createRenderPipeline_of_compile (env : InitEnv) (s : Backend) (dev lib v f : Handle)
    (hdev : s.device = some dev) (hlib : env.newDefaultLibrary = some lib)
    (hv : env.vertex_main = some v) (hf : env.fragment_main = some f) :
    createRenderPipeline env s =
      { ret := Completion.normal
        state := { s with pipelineState := env.newRenderPipelineState.1 }
        trace := [Event.newDefaultLibrary (some dev),
                  Event.newFunctionWithName (some lib) "vertex_main",
                  Event.newFunctionWithName (some lib) "fragment_main",
                  Event.newRenderPipelineStateWithDescriptor (some dev)
                    { vertexFunction := some v, fragmentFunction := some f
                      colorAttachment0PixelFormat := layerPixelFormat s.metalLayer }]
          ++ released s.pipelineState
          ++ (match env.newRenderPipelineState.2 with
              | none => []
              | some description => [pipelineErrorMsg description]) } := by
  cases herr : env.newRenderPipelineState.2 <;>
    simp [createRenderPipeline, hdev, hlib, hv, hf, herr, msgSend_some, pipelineErrorMsg]

/-- The compilation is reached only with a device, a library and both functions. -/
theorem createRenderPipeline_compile_reached (env : InitEnv) (s : Backend)
    (h : ∃ e ∈ (createRenderPipeline env s).trace, e.isCompile = true) :
    ∃ dev lib v f, s.device = some dev ∧ env.newDefaultLibrary = some lib
      ∧ env.vertex_main = some v ∧ env.fragment_main = some f := by
  obtain ⟨e, he, hc⟩ := h
  cases hdev : s.device with
  | none =>
    simp [createRenderPipeline, hdev, msgSend_none] at he
    rcases he with rfl | rfl <;> simp [Event.isCompile] at hc
  | some dev =>
    cases hlib : env.newDefaultLibrary with
    | none =>
      simp [createRenderPipeline, hdev, hlib, msgSend_some] at he
      rcases he with rfl | rfl <;> simp [Event.isCompile] at hc
    | some lib =>
      cases hv : env.vertex_main with
      | none =>
        simp [createRenderPipeline, hdev, hlib, hv, msgSend_some] at he
        rcases he with rfl | rfl | rfl | rfl <;> simp [Event.isCompile] at hc
      | some v =>
        cases hf : env.fragment_main with
        | none =>
          simp [createRenderPipeline, hdev, hlib, hv, hf, msgSend_some] at he
          rcases he with rfl | rfl | rfl | rfl <;> simp [Event.isCompile] at hc
        | some f => exact ⟨dev, lib, v, f, rfl, rfl, rfl, rfl⟩

/-- C5 (as stated, refuted): on a host where the compilation answers `nil` and an
error, the compilation is issued and both `createRenderPipeline()` and
`initialize()` complete normally; their caller receives no
`PipelineCompilationError`, with or without the diagnostic text. -/
theorem compile_error_not_propagated :
    (∃ e ∈ (initialize_backend hostCompileError construct).trace, e.isCompile = true)
    ∧ hostCompileError.newRenderPipelineState = (none, some "link failed")
    ∧ (initialize_backend hostCompileError construct).ret = Completion.normal
    ∧ (createRenderPipeline hostCompileError setUpBackend).ret = Completion.normal
    ∧ (∀ text, (initialize_backend hostCompileError construct).ret
        ≠ Completion.failed (ErrorKind.PipelineCompilationError text)) := by
  have hs : (setupMetal hostCompileError construct).state = setUpBackend := rfl
  have hr : initialize_backend hostCompileError construct =
      { ret := (createRenderPipeline hostCompileError setUpBackend).ret
        state := (createRenderPipeline hostCompileError setUpBackend).state
        trace := (setupMetal hostCompileError construct).trace
          ++ (createRenderPipeline hostCompileError setUpBackend).trace } := rfl
  rw [hr, createRenderPipeline_of_compile hostCompileError setUpBackend 1 4 5 6 rfl rfl rfl rfl]
  refine ⟨⟨Event.newRenderPipelineStateWithDescriptor (some 1)
      { vertexFunction := some 5, fragmentFunction := some 6
        colorAttachment0PixelFormat := layerPixelFormat setUpBackend.metalLayer }, ?_, rfl⟩,
    rfl, rfl, rfl, ?_⟩
  · simp
  · intro text h
    cases h

/-- C5 (amended): whenever the pipeline compilation is issued and the API writes
an error, `createRenderPipeline()` logs "Failed to create Metal pipeline state"
with the API's diagnostic text as its argument, stores the pipeline state the
API returned and completes normally; `initialize()`, which runs it after
`setupMetal()`, logs the same line and completes normally as well.  The failure
reaches the log, not the caller: no error result is returned. -/
theorem compile_error_logged (env : InitEnv) (s : Backend) (text : String)
    (hc : ∃ e ∈ (createRenderPipeline env s).trace, e.isCompile = true)
    (he : env.newRenderPipelineState.2 = some text) :
    (createRenderPipeline env s).ret = Completion.normal
    ∧ Event.ERROR_MSG "MTLGSRender: Failed to create Metal pipeline state: %s" [text]
        ∈ (createRenderPipeline env s).trace
    ∧ (createRenderPipeline env s).state.pipelineState = env.newRenderPipelineState.1
    ∧ (∀ s0 : Backend, (setupMetal env s0).state = s →
        (initialize_backend env s0).ret = Completion.normal
        ∧ Event.ERROR_MSG "MTLGSRender: Failed to create Metal pipeline state: %s" [text]
            ∈ (initialize_backend env s0).trace
        ∧ (initialize_backend env s0).state.pipelineState = env.newRenderPipelineState.1) := by
  obtain ⟨dev, lib, v, f, hdev, hlib, hv, hf⟩ := createRenderPipeline_compile_reached env s hc
  have hrun := createRenderPipeline_of_compile env s dev lib v f hdev hlib hv hf
  rw [he] at hrun
  have h1 : (createRenderPipeline env s).ret = Completion.normal := by rw [hrun]
  have h2 : Event.ERROR_MSG "MTLGSRender: Failed to create Metal pipeline state: %s" [text]
      ∈ (createRenderPipeline env s).trace := by
    rw [hrun]
    simp [pipelineErrorMsg]
  have h3 : (createRenderPipeline env s).state.pipelineState = env.newRenderPipelineState.1 := by
    rw [hrun]
  refine ⟨h1, h2, h3, ?_⟩
  intro s0 hs0
  have hi : initialize_backend env s0 =
      { ret := (createRenderPipeline env s).ret
        state := (createRenderPipeline env s).state
        trace := (setupMetal env s0).trace ++ (createRenderPipeline env s).trace } := by
    rw [← hs0]
    rfl
  rw [hi]
  exact ⟨h1, List.mem_append_right _ h2, h3⟩

/-- Witness of `compile_error_logged`: the backend set up on a host whose
compilation answers `nil` and the error "link failed". -/
theorem compile_error_logged_witness :
    (∃ e ∈ (createRenderPipeline hostCompileError setUpBackend).trace, e.isCompile = true)
    ∧ hostCompileError.newRenderPipelineState.2 = some "link failed"
    ∧ (createRenderPipeline hostCompileError setUpBackend).ret = Completion.normal
    ∧ Event.ERROR_MSG "MTLGSRender: Failed to create Metal pipeline state: %s" ["link failed"]
        ∈ (createRenderPipeline hostCompileError setUpBackend).trace
    ∧ (createRenderPipeline hostCompileError setUpBackend).state.pipelineState
        = hostCompileError.newRenderPipelineState.1
    ∧ (∀ s0 : Backend, (setupMetal hostCompileError s0).state = setUpBackend →
        (initialize_backend hostCompileError s0).ret = Completion.normal
        ∧ Event.ERROR_MSG "MTLGSRender: Failed to create Metal pipeline state: %s"
            ["link failed"] ∈ (initialize_backend hostCompileError s0).trace
        ∧ (initialize_backend hostCompileError s0).state.pipelineState
            = hostCompileError.newRenderPipelineState.1) :=
  have hc : ∃ e ∈ (createRenderPipeline hostCompileError setUpBackend).trace,
      e.isCompile = true :=
    ⟨Event.newRenderPipelineStateWithDescriptor (some 1)
        { vertexFunction := some 5, fragmentFunction := some 6
          colorAttachment0PixelFormat := layerPixelFormat setUpBackend.metalLayer },
      by rw [createRenderPipeline_of_compile hostCompileError setUpBackend 1 4 5 6
            rfl rfl rfl rfl]
         simp,
      rfl⟩
  ⟨hc, rfl, compile_error_logged hostCompileError setUpBackend "link failed" hc rfl⟩

/-! ## Frames never touch the members -/

/-- The function `render()` writes no member. -/
theorem render_state (env : FrameEnv) (s : Backend) : (render env s).state = s := by
  cases hd : msgSend s.metalLayer env.nextDrawable with
  | none => rw [render_of_no_drawable env s hd]
  | some d =>
    cases hc : msgSend s.commandQueue env.commandBuffer with
    | none => rw [render_of_no_commandBuffer env s d hd hc]
    | some cb => rw [render_of_acquired env s d cb hd hc]

/-- The function `render()` compiles nothing. -/
theorem render_compileCount (env : FrameEnv) (s : Backend) :
    compileCount (render env s).trace = 0 := by
  cases hd : msgSend s.metalLayer env.nextDrawable with
  | none =>
    rw [render_of_no_drawable env s hd]
    rfl
  | some d =>
    cases hc : msgSend s.commandQueue env.commandBuffer with
    | none =>
      rw [render_of_no_commandBuffer env s d hd hc]
      rfl
    | some cb =>
      rw [render_of_acquired env s d cb hd hc]
      rfl

/-- Every pipeline bind of a `render()` binds the member `pipelineState`. -/
theorem render_binds_member (env : FrameEnv) (s : Backend) (enc p : Option Handle)
    (h : Event.setRenderPipelineState enc p ∈ (render env s).trace) :
    p = s.pipelineState := by
  cases hd : msgSend s.metalLayer env.nextDrawable with
  | none =>
    rw [render_of_no_drawable env s hd] at h
    simp at h
  | some d =>
    cases hc : msgSend s.commandQueue env.commandBuffer with
    | none =>
      rw [render_of_no_commandBuffer env s d hd hc] at h
      simp at h
    | some cb =>
      rw [render_of_acquired env s d cb hd hc] at h
      simp at h
      exact h.2

/-- A sequence of frames leaves the members as they were. -/
theorem renderFrames_state (frames : List FrameEnv) (s : Backend) :
    (renderFrames frames s).1 = s := by
  induction frames with
  | nil => rfl
  | cons f fs ih =>
    simp only [renderFrames]
    rw [render_state f s]
    exact ih

/-- The trace of a sequence of frames: the traces of its frames, each rendered
from the same members. -/
theorem renderFrames_trace_cons (f : FrameEnv) (fs : List FrameEnv) (s : Backend) :
    (renderFrames (f :: fs) s).2 = (render f s).trace ++ (renderFrames fs s).2 := by
  simp only [renderFrames]
  rw [render_state f s]

/-- A sequence of frames compiles nothing. -/
theorem renderFrames_compileCount (frames : List FrameEnv) (s : Backend) :
    compileCount (renderFrames frames s).2 = 0 := by
  induction frames with
  | nil => rfl
  | cons f fs ih =>
    rw [renderFrames_trace_cons]
    have h := render_compileCount f s
    unfold compileCount at *
    rw [List.filter_append, List.length_append, h, ih]

/-- Every pipeline bind of a sequence of frames binds the member `pipelineState`. -/
theorem renderFrames_binds_member (frames : List FrameEnv) (s : Backend)
    (enc p : Option Handle)
    (h : Event.setRenderPipelineState enc p ∈ (renderFrames frames s).2) :
    p = s.pipelineState := by
  induction frames with
  | nil => simp [renderFrames] at h
  | cons f fs ih =>
    rw [renderFrames_trace_cons, List.mem_append] at h
    rcases h with h | h
    · exact render_binds_member f s enc p h
    · exact ih h

/-! ## Counting compilations -/

/-- Compilations of a concatenation. -/
theorem compileCount_append (t u : List Event) :
    compileCount (t ++ u) = compileCount t + compileCount u := by
  unfold compileCount
  rw [List.filter_append, List.length_append]

/-- Giving up an object compiles nothing. -/
theorem compileCount_released (o : Option Handle) : compileCount (released o) = 0 := by
  cases o <;> rfl

/-- The function `setupMetal()` stores the device it was given. -/
theorem setupMetal_device (env : InitEnv) (s : Backend) :
    (setupMetal env s).state.device = env.systemDefaultDevice := by
  cases hdev : env.systemDefaultDevice with
  | none => simp [setupMetal, hdev]
  | some dev =>
    cases hq : env.newCommandQueue <;> simp [setupMetal, hdev, hq, msgSend_some]

/-- The function `setupMetal()` leaves the member `pipelineState` alone. -/
theorem setupMetal_pipelineState (env : InitEnv) (s : Backend) :
    (setupMetal env s).state.pipelineState = s.pipelineState := by
  cases hdev : env.systemDefaultDevice with
  | none => simp [setupMetal, hdev]
  | some dev =>
    cases hq : env.newCommandQueue <;> simp [setupMetal, hdev, hq, msgSend_some]

/-- The function `setupMetal()` compiles nothing. -/
theorem setupMetal_compileCount (env : InitEnv) (s : Backend) :
    compileCount (setupMetal env s).trace = 0 := by
  cases hdev : env.systemDefaultDevice with
  | none =>
    simp only [setupMetal, hdev, compileCount_append, compileCount_released]
    rfl
  | some dev =>
    cases hq : env.newCommandQueue with
    | none =>
      simp only [setupMetal, hdev, hq, msgSend_some, compileCount_append,
        compileCount_released]
      rfl
    | some q =>
      simp only [setupMetal, hdev, hq, msgSend_some, compileCount_append,
        compileCount_released]
      rfl

/-- The function `createRenderPipeline()` compiles once when it has a device, a
library and both functions, and not at all otherwise. -/
theorem createRenderPipeline_compileCount (env : InitEnv) (s : Backend) :
    compileCount (createRenderPipeline env s).trace =
      if (s.device.isSome && env.newDefaultLibrary.isSome
          && env.vertex_main.isSome && env.fragment_main.isSome) = true then 1 else 0 := by
  cases hdev : s.device with
  | none =>
    simp [createRenderPipeline, hdev, msgSend_none, compileCount, Event.isCompile]
  | some dev =>
    cases hlib : env.newDefaultLibrary with
    | none =>
      simp [createRenderPipeline, hdev, hlib, msgSend_some, compileCount, Event.isCompile]
    | some lib =>
      cases hv : env.vertex_main with
      | none =>
        simp [createRenderPipeline, hdev, hlib, hv, msgSend_some, compileCount,
          Event.isCompile]
      | some v =>
        cases hf : env.fragment_main with
        | none =>
          simp [createRenderPipeline, hdev, hlib, hv, hf, msgSend_some, compileCount,
            Event.isCompile]
        | some f =>
          rw [createRenderPipeline_of_compile env s dev lib v f hdev hlib hv hf]
          simp only [compileCount_append, compileCount_released]
          cases herr : env.newRenderPipelineState.2 <;> rfl

/-- The function `initialize()` compiles once when `reachesCompile` holds, and
not at all otherwise. -/
theorem initialize_compileCount (env : InitEnv) (s : Backend) :
    compileCount (initialize_backend env s).trace =
      if reachesCompile env = true then 1 else 0 := by
  have h : (initialize_backend env s).trace =
      (setupMetal env s).trace ++ (createRenderPipeline env (setupMetal env s).state).trace := rfl
  rw [h, compileCount_append, setupMetal_compileCount, createRenderPipeline_compileCount,
    setupMetal_device, Nat.zero_add]
  rfl

/-- When `initialize()` reaches the compilation, the member `pipelineState`
holds the object the compilation returned. -/
theorem initialize_pipelineState (env : InitEnv) (s : Backend)
    (h : reachesCompile env = true) :
    (initialize_backend env s).state.pipelineState = env.newRenderPipelineState.1 := by
  simp only [reachesCompile, Bool.and_eq_true, Option.isSome_iff_exists] at h
  obtain ⟨⟨⟨⟨dev, hdev⟩, ⟨lib, hlib⟩⟩, ⟨v, hv⟩⟩, ⟨f, hf⟩⟩ := h
  have hs : (setupMetal env s).state.device = some dev := by
    rw [setupMetal_device, hdev]
  have hi : (initialize_backend env s).state
      = (createRenderPipeline env (setupMetal env s).state).state := rfl
  rw [hi, createRenderPipeline_of_compile env _ dev lib v f hs hlib hv hf]

/-! ## One compilation, many frames -/

/-- C6 (as stated, refuted): on a host whose shader library cannot be loaded,
one `initialize()` followed by two `render()` calls issues no pipeline-state
compilation at all, not exactly one. -/
theorem compile_count_zero_without_library :
    compileCount ((initialize_backend hostNoLibrary construct).trace
      ++ (renderFrames [frameOk, frameOk]
            (initialize_backend hostNoLibrary construct).state).2) ≠ 1 := by
  rw [compileCount_append, initialize_compileCount, renderFrames_compileCount]
  decide

/-- C6 (amended): for every number of frames, one `initialize()` followed by
that many `render()` calls, whatever each frame's drawable and command-buffer
outcome, issues at most one pipeline-state compilation in total: exactly one
when `setupMetal()` runs to its end and the library and both shader functions
are obtained, none when the device, the library or a shader function is not
obtained; `render()` never compiles.  Every pipeline bind of those frames binds
the pipeline state `initialize()` stored, and every frame that obtains its
drawable and command buffer makes exactly one such bind. -/
theorem compile_once (env : InitEnv) (s : Backend) (frames : List FrameEnv) :
    compileCount ((initialize_backend env s).trace
        ++ (renderFrames frames (initialize_backend env s).state).2) ≤ 1
    ∧ (env.systemDefaultDevice.isSome = true → env.newCommandQueue.isSome = true →
        env.newDefaultLibrary.isSome = true → env.vertex_main.isSome = true →
        env.fragment_main.isSome = true →
        compileCount ((initialize_backend env s).trace
          ++ (renderFrames frames (initialize_backend env s).state).2) = 1
        ∧ (initialize_backend env s).state.pipelineState = env.newRenderPipelineState.1)
    ∧ (env.systemDefaultDevice = none ∨ env.newDefaultLibrary = none
        ∨ env.vertex_main = none ∨ env.fragment_main = none →
        compileCount ((initialize_backend env s).trace
          ++ (renderFrames frames (initialize_backend env s).state).2) = 0)
    ∧ compileCount (renderFrames frames (initialize_backend env s).state).2 = 0
    ∧ (∀ enc p, Event.setRenderPipelineState enc p
          ∈ (renderFrames frames (initialize_backend env s).state).2 →
        p = (initialize_backend env s).state.pipelineState)
    ∧ (∀ f ∈ frames, ∀ d cb,
        msgSend (initialize_backend env s).state.metalLayer f.nextDrawable = some d →
        msgSend (initialize_backend env s).state.commandQueue f.commandBuffer = some cb →
        (render f (initialize_backend env s).state).trace.filter Event.isPipelineBind
          = [Event.setRenderPipelineState f.renderCommandEncoder
              (initialize_backend env s).state.pipelineState]) := by
  have hcount : compileCount ((initialize_backend env s).trace
        ++ (renderFrames frames (initialize_backend env s).state).2)
      = (if reachesCompile env = true then 1 else 0) := by
    rw [compileCount_append, initialize_compileCount, renderFrames_compileCount, Nat.add_zero]
  refine ⟨?_, ?_, ?_, renderFrames_compileCount _ _, ?_, ?_⟩
  · rw [hcount]
    split <;> decide
  · intro h1 _ h3 h4 h5
    have hr : reachesCompile env = true := by
      simp [reachesCompile, h1, h3, h4, h5]
    exact ⟨by rw [hcount, if_pos hr], initialize_pipelineState env s hr⟩
  · intro h
    have hr : ¬ reachesCompile env = true := by
      rcases h with h | h | h | h <;> simp [reachesCompile, h]
    rw [hcount, if_neg hr]
  · intro enc p h
    exact renderFrames_binds_member frames _ enc p h
  · intro f _ d cb hd hc
    rw [render_of_acquired f _ d cb hd hc]
    rfl

/-! ## The order of a frame -/

/-- C7 (as stated, refuted): in a frame of an initialised backend whose drawable
and command buffer are obtained, presentation is not requested after the
commit: no present follows a commit, the present comes before it. -/
theorem commit_not_before_present :
    msgSend readyBackend.metalLayer frameOk.nextDrawable = some { id := 10, texture := some 20 }
    ∧ msgSend readyBackend.commandQueue frameOk.commandBuffer = some 11
    ∧ occursBefore Event.isCommit Event.isPresent (render frameOk readyBackend).trace = false
    ∧ occursBefore Event.isPresent Event.isCommit (render frameOk readyBackend).trace = true := by
  rw [render_of_acquired frameOk readyBackend { id := 10, texture := some 20 } 11 rfl rfl]
  exact ⟨rfl, rfl, rfl, rfl⟩

/-- C7 (amended): in every `render()` in which both the drawable and the command
buffer are obtained, the frame ends with three messages in this order: the
encoding session is closed, then presentation of the acquired drawable is
requested on the command buffer, and only then is the command buffer committed
to the queue.  Each of the three is sent exactly once, the commit is the last
message of the frame (whose whole trace is given), and the drawable presented is
the one acquired at the start of that same frame. -/
theorem frame_order (env : FrameEnv) (s : Backend) (d : CAMetalDrawable) (cb : Handle)
    (hd : msgSend s.metalLayer env.nextDrawable = some d)
    (hc : msgSend s.commandQueue env.commandBuffer = some cb) :
    (render env s).trace =
        [Event.nextDrawable (layerId s.metalLayer),
         Event.commandBuffer s.commandQueue,
         Event.renderCommandEncoderWithDescriptor (some cb)
           { texture := d.texture, loadAction := MTLLoadAction.Clear,
             clearColor := (0, 0, 0, 1), storeAction := MTLStoreAction.Store },
         Event.setRenderPipelineState env.renderCommandEncoder s.pipelineState,
         Event.get_current_gcm_context,
         Event.endEncoding env.renderCommandEncoder,
         Event.presentDrawable (some cb) d.id,
         Event.commit (some cb)]
    ∧ occursBefore Event.isEndEncoding Event.isPresent (render env s).trace = true
    ∧ occursBefore Event.isPresent Event.isCommit (render env s).trace = true
    ∧ (render env s).trace.filter Event.isEndEncoding
        = [Event.endEncoding env.renderCommandEncoder]
    ∧ (render env s).trace.filter Event.isPresent = [Event.presentDrawable (some cb) d.id]
    ∧ (render env s).trace.filter Event.isCommit = [Event.commit (some cb)] := by
  rw [render_of_acquired env s d cb hd hc]
  exact ⟨rfl, rfl, rfl, rfl, rfl, rfl⟩

/-- Witness of `frame_order`: a frame of an initialised backend in which every
acquisition succeeds. -/
theorem frame_order_witness :
    msgSend readyBackend.metalLayer frameOk.nextDrawable = some { id := 10, texture := some 20 }
    ∧ msgSend readyBackend.commandQueue frameOk.commandBuffer = some 11
    ∧ (render frameOk readyBackend).trace =
        [Event.nextDrawable (layerId readyBackend.metalLayer),
         Event.commandBuffer readyBackend.commandQueue,
         Event.renderCommandEncoderWithDescriptor (some 11)
           { texture := some 20, loadAction := MTLLoadAction.Clear,
             clearColor := (0, 0, 0, 1), storeAction := MTLStoreAction.Store },
         Event.setRenderPipelineState (some 12) readyBackend.pipelineState,
         Event.get_current_gcm_context,
         Event.endEncoding (some 12), Event.presentDrawable (some 11) 10,
         Event.commit (some 11)]
    ∧ occursBefore Event.isEndEncoding Event.isPresent (render frameOk readyBackend).trace = true
    ∧ occursBefore Event.isPresent Event.isCommit (render frameOk readyBackend).trace = true
    ∧ (render frameOk readyBackend).trace.filter Event.isEndEncoding
        = [Event.endEncoding (some 12)]
    ∧ (render frameOk readyBackend).trace.filter Event.isPresent
        = [Event.presentDrawable (some 11) 10]
    ∧ (render frameOk readyBackend).trace.filter Event.isCommit = [Event.commit (some 11)] :=
  ⟨rfl, rfl, frame_order frameOk readyBackend { id := 10, texture := some 20 } 11 rfl rfl⟩

/-! ## The translation step -/

/-- C8 (the code at the scenario's snapshot): `executeRenderCommand` emits
nothing for a snapshot with vertex format F1, texture slot 0 bound to R,
blending disabled and a triangle list of 6 vertices.  The frame that renders it
sends the encoder the pipeline-state bind and nothing else before the encoding
is closed: no resource bind, no viewport and no draw, where the operation
sequence of the scenario has four operations ending in the draw of 6 vertices. -/
theorem executeRenderCommand_emits_nothing :
    (executeRenderCommand (some snapshotF1) readyBackend).trace = []
    ∧ (render frameF1 readyBackend).trace =
        [Event.nextDrawable (some 3),
         Event.commandBuffer (some 2),
         Event.renderCommandEncoderWithDescriptor (some 11)
           { texture := some 20, loadAction := MTLLoadAction.Clear,
             clearColor := (0, 0, 0, 1), storeAction := MTLStoreAction.Store },
         Event.setRenderPipelineState (some 12) (some 7),
         Event.get_current_gcm_context,
         Event.endEncoding (some 12),
         Event.presentDrawable (some 11) 10,
         Event.commit (some 11)]
    ∧ encoded (render frameF1 readyBackend).trace
        = [Event.setRenderPipelineState (some 12) (some 7)]
    ∧ translatedOperations (some 12) (some 7) snapshotF1
        = [Event.setRenderPipelineState (some 12) (some 7),
           Event.bindResource (some 12) 0 42,
           Event.setViewport (some 12) (0, 0, 1280, 720),
           Event.draw (some 12) Primitive.TriangleList 0 6]
    ∧ encoded (render frameF1 readyBackend).trace
        ≠ translatedOperations (some 12) (some 7) snapshotF1 := by
  have h := render_of_acquired frameF1 readyBackend { id := 10, texture := some 20 } 11 rfl rfl
  rw [h]
  refine ⟨rfl, rfl, rfl, rfl, ?_⟩
  intro hne
  have hl := congrArg List.length hne
  revert hl
  decide

/-! ## Dropped frames -/

/-- C9: a dropped frame leaves the backend untouched and usable.  For every
backend state and every outcome of the drawable, command-buffer and encoder
requests, `render()` leaves `device`, `commandQueue`, `metalLayer` (the same
layer with the same device, pixel format and framebuffer-only flag) and
`pipelineState` equal to their values before the call; hence any `render()`
made after it, in particular a successful one after a failed one, behaves
exactly as it would have from the state before: same trace, same completion,
same state. -/
theorem render_leaves_backend_untouched (env : FrameEnv) (s : Backend) :
    (render env s).state.device = s.device
    ∧ (render env s).state.commandQueue = s.commandQueue
    ∧ (render env s).state.metalLayer = s.metalLayer
    ∧ (render env s).state.pipelineState = s.pipelineState
    ∧ (∀ next : FrameEnv,
        (render next (render env s).state).trace = (render next s).trace
        ∧ render next (render env s).state = render next s) := by
  rw [render_state env s]
  exact ⟨rfl, rfl, rfl, rfl, fun _ => ⟨rfl, rfl⟩⟩

/-! ## The descriptor that is compiled -/

/-- No message of `setupMetal()` is a compilation. -/
theorem setupMetal_no_compile (env : InitEnv) (s : Backend) (e : Event)
    (h : e ∈ (setupMetal env s).trace) : e.isCompile = false := by
  have h0 := setupMetal_compileCount env s
  unfold compileCount at h0
  have hnil := List.length_eq_zero.mp h0
  rw [List.filter_eq_nil_iff] at hnil
  have := hnil e h
  cases hc : e.isCompile
  · rfl
  · exact absurd hc this

/-- When `setupMetal()` runs to its end (device and queue obtained), every
compilation `initialize()` issues goes to that device with the layer's format
`MTLPixelFormatBGRA8Unorm`, and the layer is configured with that device and
framebuffer-only usage. -/
theorem initialize_descriptor_after_setup (env : InitEnv) (s : Backend) (dev q : Handle)
    (hdev : env.systemDefaultDevice = some dev) (hq : env.newCommandQueue = some q)
    (receiver : Option Handle) (desc : MTLRenderPipelineDescriptor)
    (h : Event.newRenderPipelineStateWithDescriptor receiver desc
          ∈ (initialize_backend env s).trace) :
    receiver = some dev
    ∧ desc.colorAttachment0PixelFormat = MTLPixelFormatBGRA8Unorm
    ∧ (initialize_backend env s).state.metalLayer =
        some { env.layer with device := some dev, pixelFormat := MTLPixelFormatBGRA8Unorm,
                              framebufferOnly := true } := by
  have hsetup : (setupMetal env s).state =
      { device := some dev, commandQueue := some q
        metalLayer := some { env.layer with device := some dev,
                                            pixelFormat := MTLPixelFormatBGRA8Unorm,
                                            framebufferOnly := true }
        pipelineState := s.pipelineState } := by
    simp [setupMetal, hdev, hq, msgSend_some]
  have htr : (initialize_backend env s).trace =
      (setupMetal env s).trace ++ (createRenderPipeline env (setupMetal env s).state).trace := rfl
  have hst : (initialize_backend env s).state
      = (createRenderPipeline env (setupMetal env s).state).state := rfl
  rw [htr, List.mem_append] at h
  rcases h with h | h
  · have := setupMetal_no_compile env s _ h
    simp [Event.isCompile] at this
  · obtain ⟨dev2, lib, v, f, hd2, hlib, hv, hf⟩ :=
      createRenderPipeline_compile_reached env _ ⟨_, h, rfl⟩
    rw [hst, createRenderPipeline_of_compile env _ dev2 lib v f hd2 hlib hv hf]
    rw [createRenderPipeline_of_compile env _ dev2 lib v f hd2 hlib hv hf] at h
    rw [hsetup] at hd2 h ⊢
    simp only [Option.some.injEq] at hd2
    subst hd2
    have hmem : Event.newRenderPipelineStateWithDescriptor receiver desc
        = Event.newRenderPipelineStateWithDescriptor (some dev)
            { vertexFunction := some v, fragmentFunction := some f
              colorAttachment0PixelFormat := MTLPixelFormatBGRA8Unorm } := by
      simp only [List.mem_append, List.mem_cons, List.not_mem_nil, or_false] at h
      rcases h with (h | h) | h
      · rcases h with h | h | h | h
        · cases h
        · cases h
        · cases h
        · exact h
      · have := isRelease_of_mem_released _ _ h
        simp [Event.isRelease] at this
      · cases herr : env.newRenderPipelineState.2 with
        | none =>
          rw [herr] at h
          simp at h
        | some t =>
          rw [herr] at h
          simp [pipelineErrorMsg] at h
    injection hmem with h1 h2
    subst h1 h2
    exact ⟨rfl, rfl, rfl⟩

/-- C10 (the code at a host whose device rejects the command queue):
`setupMetal()` stops at line 52 before the layer exists, and `initialize()` goes
on to `createRenderPipeline()`, which loads the library and both functions and
issues the compilation.  The descriptor's colour attachment 0 carries
`MTLPixelFormatInvalid` (the format read from the `nil` layer), not
`MTLPixelFormatBGRA8Unorm`, and `metalLayer` is still `nil` afterwards. -/
theorem initialize_compiles_without_layer :
    hostNoQueue.newCommandQueue = none
    ∧ (initialize_backend hostNoQueue construct).trace =
        [Event.MTLCreateSystemDefaultDevice,
         Event.newCommandQueue (some 1),
         Event.ERROR_MSG "MTLGSRender: Failed to create Metal command queue!" [],
         Event.newDefaultLibrary (some 1),
         Event.newFunctionWithName (some 4) "vertex_main",
         Event.newFunctionWithName (some 4) "fragment_main",
         Event.newRenderPipelineStateWithDescriptor (some 1)
           { vertexFunction := some 5, fragmentFunction := some 6
             colorAttachment0PixelFormat := MTLPixelFormatInvalid }]
    ∧ (initialize_backend hostNoQueue construct).state =
        { device := some 1, commandQueue := none, metalLayer := none, pipelineState := some 7 }
    ∧ compileCount (initialize_backend hostNoQueue construct).trace = 1
    ∧ MTLPixelFormatInvalid ≠ MTLPixelFormatBGRA8Unorm := by
  refine ⟨rfl, rfl, rfl, rfl, ?_⟩
  decide

end MTLGSRender
